import Mathlib

/-!
Shallow embedding, in Lean 4, of the five diagnostic Python scripts of the
GeoModelLab/breath repository:

  check_chunk.py, compare_netcdf_chunk.py, diagnose_netcdf.py,
  final_diagnosis.py, verify_coordinate_mapping.py.

The scripts compare a gridded NetCDF climate dataset against a flat binary
export (a "chunk" file).  The embedding models the coordinate-index
arithmetic, the bounding-box grid filtering, the nearest-neighbour index
search, the triple-loop flattening, the byte-slicing of the chunk file, the
value-category counting, the file-system effects and the print traces of
the scripts, and proves or refutes the claims of the specification about
them.
-/

namespace Breath

/-! ## Coordinate-index formulas of the three scripts that compute one

Each script computes a flattened coordinate index from a latitude index and
a longitude index.  The formulas below are transcribed from the source.
-/

/-- compare_netcdf_chunk.py line 83: coord_index = lat_idx * len(lon) + lon_idx,
where nlon = len(lon) is the length of the full longitude array. -/
def coord_index (lat_idx lon_idx nlon : Nat) : Nat :=
  lat_idx * nlon + lon_idx

/-- verify_coordinate_mapping.py line 75:
coord_idx_calculated = filtered_lat_idx * len(lon_filtered) + filtered_lon_idx,
where nlonFiltered = len(lon_filtered) is the length of the bounding-box
filtered longitude array. -/
def coord_idx_calculated (filtered_lat_idx filtered_lon_idx nlonFiltered : Nat) : Nat :=
  filtered_lat_idx * nlonFiltered + filtered_lon_idx

/-- final_diagnosis.py line 120:
coord_idx_berlin = filtered_lat_idx * nlon + filtered_lon_idx, where nlon is
the longitude extent of the transposed, bounding-box filtered data block. -/
def coord_idx_berlin (filtered_lat_idx filtered_lon_idx nlon : Nat) : Nat :=
  filtered_lat_idx * nlon + filtered_lon_idx

/-- Spec-side definition, written from the specification's words: the
lat-major flattening convention, coord = lat_idx * nlon + lon_idx. -/
def latMajorIndex (lat_idx lon_idx nlon : Nat) : Nat :=
  lat_idx * nlon + lon_idx

/-- Spec-side definition, written from the specification's words: the
lon-major flattening convention, coord = lon_idx * nlat + lat_idx. -/
def lonMajorIndex (lat_idx lon_idx nlat : Nat) : Nat :=
  lon_idx * nlat + lat_idx

/-! ## Which operations each of the five scripts performs

Transcribed from the source of each script: whether it opens the NetCDF
dataset, opens the binary chunk file, computes a flattened coordinate
index, slices a time series from each of the two sources, and prints a
side-by-side comparison of the two.
-/

/-- Record of the operations a diagnostic script performs. -/
structure ScriptOps where
  opensNetCDF : Bool
  opensChunk : Bool
  computesCoordIndex : Bool
  slicesBothTimeSeries : Bool
  printsComparison : Bool
deriving DecidableEq, Repr

/-- check_chunk.py: opens only the chunk file (line 3), unpacks its first
1000 values and prints category counts.  It never opens the NetCDF dataset,
computes no coordinate index, slices no NetCDF time series and prints no
side-by-side comparison. -/
def checkChunkOps : ScriptOps :=
  { opensNetCDF := false, opensChunk := true, computesCoordIndex := false,
    slicesBothTimeSeries := false, printsComparison := false }

/-- compare_netcdf_chunk.py: opens the NetCDF dataset (line 10) and the
chunk file (line 25), computes coord_index (line 83), slices a 730-day time
series from both sources (lines 87 and 96-99) and prints the two for
comparison. -/
def compareNetcdfChunkOps : ScriptOps :=
  { opensNetCDF := true, opensChunk := true, computesCoordIndex := true,
    slicesBothTimeSeries := true, printsComparison := true }

/-- diagnose_netcdf.py: opens only the NetCDF dataset (line 5) and prints
statistics about it.  It never opens the chunk file, computes no flattened
coordinate index, and has no second source to compare against. -/
def diagnoseNetcdfOps : ScriptOps :=
  { opensNetCDF := true, opensChunk := false, computesCoordIndex := false,
    slicesBothTimeSeries := false, printsComparison := false }

/-- final_diagnosis.py: opens the NetCDF dataset (line 10) and the chunk
file (line 95), computes coord_idx_berlin (line 120), slices a time series
from the Python-flattened data and from the chunk (lines 124-125) and
prints a side-by-side table (lines 127-134). -/
def finalDiagnosisOps : ScriptOps :=
  { opensNetCDF := true, opensChunk := true, computesCoordIndex := true,
    slicesBothTimeSeries := true, printsComparison := true }

/-- verify_coordinate_mapping.py: opens the NetCDF dataset (line 10) and
the chunk file (line 82), computes coord_idx_calculated (line 75), slices a
time series from both sources (lines 56 and 87-89) and prints a
side-by-side table (lines 107-112). -/
def verifyCoordinateMappingOps : ScriptOps :=
  { opensNetCDF := true, opensChunk := true, computesCoordIndex := true,
    slicesBothTimeSeries := true, printsComparison := true }

/-- The five scripts of the repository. -/
def allScripts : List ScriptOps :=
  [checkChunkOps, compareNetcdfChunkOps, diagnoseNetcdfOps,
   finalDiagnosisOps, verifyCoordinateMappingOps]

/-- A script performs all five operations of the spec sentence. -/
def performsAllOps (s : ScriptOps) : Bool :=
  s.opensNetCDF && s.opensChunk && s.computesCoordIndex &&
    s.slicesBothTimeSeries && s.printsComparison

/-! ## check_chunk.py value-category counting

check_chunk.py lines 9-11 count, over the unpacked float values, those
within 0.01 of -99.99 (missing), those unequal to themselves (NaN), and
those equal to themselves and strictly farther than 0.01 from -99.99
(valid).  A float is modelled exactly as an optional rational: none is NaN
(every comparison with it is false, and it is unequal to itself), some q is
the ordinary value q.
-/

/-- A float value in exact arithmetic: none models NaN. -/
abbrev Val : Type := Option ℚ

/-- Python abs(v + 99.99) < 0.01 on a possibly-NaN value: false for NaN
because every comparison with NaN is false. -/
def isMissing (v : Val) : Bool :=
  match v with
  | none => false
  | some q => decide (|q + 9999/100| < 1/100)

/-- Python v != v: true exactly for NaN. -/
def isNaN (v : Val) : Bool :=
  match v with
  | none => true
  | some _ => false

/-- Python v == v and abs(v + 99.99) > 0.01. -/
def isValid (v : Val) : Bool :=
  match v with
  | none => false
  | some q => decide (|q + 9999/100| > 1/100)

/-- check_chunk.py line 9: count of values within 0.01 of -99.99. -/
def countMissing (vs : List Val) : Nat := (vs.filter isMissing).length

/-- check_chunk.py line 10: count of NaN values. -/
def countNaN (vs : List Val) : Nat := (vs.filter isNaN).length

/-- check_chunk.py line 11: count of valid values. -/
def countValid (vs : List Val) : Nat := (vs.filter isValid).length

/-- A value on the category boundary: a non-NaN value exactly 0.01 away
from -99.99, counted by none of the three counts. -/
def isBorderline (v : Val) : Bool :=
  match v with
  | none => false
  | some q => decide (|q + 9999/100| = 1/100)

lemma category_split (v : Val) :
    (isMissing v).toNat + (isNaN v).toNat + (isValid v).toNat +
      (isBorderline v).toNat = 1 := by
  match v with
  | none => rfl
  | some q =>
    simp only [isMissing, isNaN, isValid, isBorderline]
    rcases lt_trichotomy (|q + 9999/100|) (1/100) with h | h | h
    · rw [decide_eq_true h, decide_eq_false (lt_asymm h),
        decide_eq_false (ne_of_lt h)]
      rfl
    · rw [decide_eq_false (fun h' => ne_of_lt h' h),
        decide_eq_false (fun h' => ne_of_gt h' h), decide_eq_true h]
      rfl
    · rw [decide_eq_false (lt_asymm h), decide_eq_true h,
        decide_eq_false (ne_of_gt h)]
      rfl

lemma counts_eq (vs : List Val) :
    countMissing vs + countNaN vs + countValid vs =
      vs.length - (vs.filter isBorderline).length := by
  induction vs with
  | nil => simp [countMissing, countNaN, countValid]
  | cons v vs ih =>
    have hb : (vs.filter isBorderline).length ≤ vs.length :=
      List.length_filter_le _ _
    have hv := category_split v
    simp only [countMissing, countNaN, countValid, List.filter_cons] at *
    cases hm : isMissing v <;> cases hn : isNaN v <;> cases hval : isValid v <;>
      cases hbord : isBorderline v <;>
      simp [hm, hn, hval, hbord] at hv ⊢ <;> omega

/-! ## Bounding-box grid filtering

verify_coordinate_mapping.py lines 21-28 and final_diagnosis.py lines 16-23
build a boolean mask over a coordinate array with an inclusive range test
and take np.where(mask)[0], the list of indices at which the mask holds, in
increasing index order.
-/

/-- The numpy idiom np.where((l >= lo) & (l <= hi))[0]: the indices of l
whose value lies in the inclusive range [lo, hi], in increasing order.  The
getD default lo is never used because every index is below the length. -/
def npWhereInRange {α : Type} [LinearOrder α] (l : List α) (lo hi : α) : List Nat :=
  (List.range l.length).filter (fun i => lo ≤ l.getD i lo ∧ l.getD i lo ≤ hi)

/-- verify_coordinate_mapping.py lines 21, 24, 27 (and final_diagnosis.py
lines 16, 19, 22): lon_mask = (lon_full >= -25.0) & (lon_full <= 45.0);
lon_indices = np.where(lon_mask)[0]. -/
def lon_indices (lon_full : List ℚ) : List Nat :=
  npWhereInRange lon_full (-25) 45

/-- verify_coordinate_mapping.py lines 22, 25, 28 (and final_diagnosis.py
lines 17, 20, 23): lat_mask = (lat_full >= 34.0) & (lat_full <= 72.0);
lat_indices = np.where(lat_mask)[0]. -/
def lat_indices (lat_full : List ℚ) : List Nat :=
  npWhereInRange lat_full 34 72

lemma mem_npWhereInRange {α : Type} [LinearOrder α] (l : List α) (lo hi : α) (i : Nat) :
    i ∈ npWhereInRange l lo hi ↔
      i < l.length ∧ lo ≤ l.getD i lo ∧ l.getD i lo ≤ hi := by
  simp [npWhereInRange, List.mem_filter, List.mem_range, and_assoc]

lemma sorted_npWhereInRange {α : Type} [LinearOrder α] (l : List α) (lo hi : α) :
    List.Sorted (· < ·) (npWhereInRange l lo hi) :=
  List.Pairwise.filter _ (List.pairwise_lt_range _)

/-! ## Byte slicing of the chunk file

verify_coordinate_mapping.py lines 86-89 and compare_netcdf_chunk.py lines
96-99 slice num_days * 4 bytes of the chunk file starting at byte offset
coord * num_days * 4 and unpack them as num_days little-endian float32
values.  struct.unpack raises unless the slice has exactly the requested
number of bytes; a Python slice is silently clamped to the data length.
-/

/-- Number of days per chunk: num_days = 730 in both scripts. -/
def num_days : Nat := 730

/-- Python slice data[a:b]: the elements from position a up to, not
including, position b, clamped to the available data. -/
def pySlice {α : Type} (l : List α) (a b : Nat) : List α :=
  (l.take b).drop a

/-- struct.unpack of n little-endian float32 values from a byte string:
succeeds, returning the consumed bytes, exactly when the byte string holds
4 * n bytes; otherwise it raises, modelled as none. -/
def structUnpackF {α : Type} (n : Nat) (bytes : List α) : Option (List α) :=
  if bytes.length = 4 * n then some bytes else none

/-- verify_coordinate_mapping.py lines 87-89 (and compare_netcdf_chunk.py
lines 97-99): chunk_ts = struct.unpack of num_days float32 values from
chunk_data[offset : offset + num_days * 4] with offset =
coord * num_days * 4. -/
def chunk_ts {α : Type} (chunk_data : List α) (coord : Nat) : Option (List α) :=
  structUnpackF num_days
    (pySlice chunk_data (coord * num_days * 4) (coord * num_days * 4 + num_days * 4))

lemma length_pySlice {α : Type} (l : List α) (a b : Nat) :
    (pySlice l a b).length = min b l.length - a := by
  simp [pySlice]

/-! ## File-system effects of the five scripts

Every file open in the repository is listed below with the mode string the
source passes.  The file system is modelled as an assignment of contents to
the two files the scripts reference; opening a file for reading leaves the
assignment unchanged, while a write-mode open would replace the contents.
-/

/-- The two files the scripts reference: the NetCDF dataset
tx_ens_mean_0.1deg_reg_v31.0e.nc and the binary chunk file
chunk_0001-0730_1980-1981.bin. -/
inductive FileId
  | ncDataset
  | chunkBin
deriving DecidableEq

/-- Python open modes occurring in (or absent from) the scripts. -/
inductive OpenMode
  | read
  | readBinary
  | write
  | writeBinary
  | append
deriving DecidableEq

/-- Whether a mode leaves the file unchanged. -/
def OpenMode.isReadOnly : OpenMode → Bool
  | .read => true
  | .readBinary => true
  | _ => false

/-- A file open performed by a script. -/
structure FileOpen where
  file : FileId
  mode : OpenMode

/-- check_chunk.py line 3: open(chunk, 'rb'). -/
def check_chunk_opens : List FileOpen := [⟨.chunkBin, .readBinary⟩]

/-- compare_netcdf_chunk.py line 10: nc.Dataset(ncfile, 'r'); line 25:
open(chunk, 'rb'). -/
def compare_netcdf_chunk_opens : List FileOpen :=
  [⟨.ncDataset, .read⟩, ⟨.chunkBin, .readBinary⟩]

/-- diagnose_netcdf.py line 5: nc.Dataset(ncfile, 'r'). -/
def diagnose_netcdf_opens : List FileOpen := [⟨.ncDataset, .read⟩]

/-- final_diagnosis.py line 10: nc.Dataset(ncfile, 'r'); line 95:
open(chunk, 'rb'). -/
def final_diagnosis_opens : List FileOpen :=
  [⟨.ncDataset, .read⟩, ⟨.chunkBin, .readBinary⟩]

/-- verify_coordinate_mapping.py line 10: nc.Dataset(ncfile, 'r'); line 82:
open(chunk, 'rb'). -/
def verify_coordinate_mapping_opens : List FileOpen :=
  [⟨.ncDataset, .read⟩, ⟨.chunkBin, .readBinary⟩]

/-- Every file open of the five scripts, in source order. -/
def allOpens : List FileOpen :=
  check_chunk_opens ++ compare_netcdf_chunk_opens ++ diagnose_netcdf_opens ++
    final_diagnosis_opens ++ verify_coordinate_mapping_opens

/-- Effect of one file open on the file system: a read-only open leaves it
unchanged; a write-mode open would replace the contents of the file with
whatever the writer produces. -/
def applyOpen {β : Type} (w : FileOpen → β) (fs : FileId → β) (op : FileOpen) :
    FileId → β :=
  if op.mode.isReadOnly then fs
  else fun f => if f = op.file then w op else fs f

/-- Effect of a sequence of file opens on the file system. -/
def runOpens {β : Type} (w : FileOpen → β) (ops : List FileOpen) (fs : FileId → β) :
    FileId → β :=
  ops.foldl (applyOpen w) fs

/-! ## Control flow and print traces of the five scripts

Each script is a straight-line sequence of print statements, with a few
for-loops over fixed or dimension-bounded ranges and a few two-way
conditionals on data-dependent booleans.  The control flow is embedded as a
statement language; executing a statement yields the trace of print events,
one event per executed print statement, tagged with the source line of the
print.  A run of a script is its trace followed by the process exit.
-/

/-- An observable event of a script run: a print (tagged with the source
line of the print statement) or the process exit. -/
inductive Ev
  | msg (line : Nat)
  | exitEv
deriving DecidableEq

/-- Statements of the diagnostic scripts: do nothing, print, run two
statements in sequence, run a body once per element of range(n), or choose
between two statements on a data-dependent boolean. -/
inductive Stmt
  | skip
  | pr (line : Nat)
  | seq (a b : Stmt)
  | forRange (n : Nat) (body : Stmt)
  | branch (c : Bool) (thn els : Stmt)

/-- A block of statements run in order. -/
def seqList (l : List Stmt) : Stmt := l.foldr .seq .skip

/-- Execute a statement, collecting its print events in program order. -/
def exec : Stmt → List Ev
  | .skip => []
  | .pr line => [.msg line]
  | .seq a b => exec a ++ exec b
  | .forRange n body => (List.replicate n (exec body)).flatten
  | .branch c t e => if c then exec t else exec e

/-- Number of print events a statement produces. -/
def stLen : Stmt → Nat
  | .skip => 0
  | .pr _ => 1
  | .seq a b => stLen a + stLen b
  | .forRange n body => n * stLen body
  | .branch c t e => if c then stLen t else stLen e

lemma join_replicate_length {α : Type} (n : Nat) (l : List α) :
    ((List.replicate n l).flatten).length = n * l.length := by
  induction n with
  | zero => simp
  | succ m ih => simp [List.replicate_succ, ih, Nat.succ_mul]; omega

lemma exec_length (s : Stmt) : (exec s).length = stLen s := by
  induction s with
  | skip => rfl
  | pr line => rfl
  | seq a b iha ihb => simp [exec, stLen, iha, ihb]
  | forRange n body ih => simp [exec, stLen, join_replicate_length, ih]
  | branch c t e iht ihe => cases c <;> simp [exec, stLen, iht, ihe]

/-- check_chunk.py control flow: five prints (lines 6, 7, 9, 10, 11). -/
def check_chunk_prog : Stmt :=
  seqList [.pr 6, .pr 7, .pr 9, .pr 10, .pr 11]

/-- compare_netcdf_chunk.py control flow.  The booleans record whether the
three isinstance(..., MaskedArray) tests at lines 61, 91 and 124 hold for
the data read from the files. -/
def compare_netcdf_chunk_prog (m1 m2 m3 : Bool) : Stmt :=
  seqList [.pr 5, .pr 6, .pr 7, .pr 13, .pr 14, .pr 15, .pr 16, .pr 17, .pr 21,
    .pr 33, .pr 34, .pr 35, .pr 36, .pr 43, .pr 44, .pr 45, .pr 48, .pr 49, .pr 50,
    .pr 57, .pr 58, .branch m1 (seqList [.pr 63, .pr 64]) .skip,
    .pr 67, .pr 68, .pr 69, .pr 79, .pr 80, .pr 84, .pr 88, .pr 89,
    .branch m2 (.pr 93) .skip,
    .pr 101, .pr 102, .pr 105, .pr 108, .pr 109, .pr 110,
    .pr 117, .pr 118, .pr 119, .pr 120, .pr 121,
    .branch m3 (seqList [.pr 127, .pr 128, .pr 129, .pr 130, .pr 131]) .skip,
    .pr 135, .pr 136, .pr 137]

/-- diagnose_netcdf.py control flow.  ndims is the number of dimensions of
the dataset (loop at lines 18-19); the booleans record the hasattr tests
for _FillValue, scale_factor, add_offset and units (lines 29, 36, 38, 40)
and the len(valid_data) > 0 test (line 72). -/
def diagnose_netcdf_prog (ndims : Nat)
    (hasFill hasScale hasOffset hasUnits validNonempty : Bool) : Stmt :=
  seqList [.pr 7, .pr 8, .pr 9, .pr 12, .pr 13, .pr 14, .pr 17,
    .forRange ndims (.pr 19),
    .pr 23, .pr 24, .pr 25, .pr 26,
    .branch hasFill (.pr 31) (.pr 33),
    .branch hasScale (.pr 37) .skip,
    .branch hasOffset (.pr 39) .skip,
    .branch hasUnits (.pr 41) .skip,
    .pr 44, .pr 45, .pr 46, .pr 50, .pr 64, .pr 65, .pr 66, .pr 67, .pr 68,
    .branch validNonempty (seqList [.pr 73, .pr 74, .pr 75, .pr 76, .pr 77]) .skip,
    .pr 80, .pr 82, .pr 86, .pr 87, .pr 88, .pr 97, .pr 100, .pr 101, .pr 102,
    .pr 108, .pr 109, .pr 118, .pr 119, .pr 120,
    .pr 128, .pr 129, .pr 130, .pr 131, .pr 132, .pr 133, .pr 137, .pr 138, .pr 139]

/-- final_diagnosis.py control flow.  nlat, nlon, ntime bound the print-free
triple flattening loop at lines 78-84; the comparison loop at lines 130-134
runs exactly 10 times. -/
def final_diagnosis_prog (nlat nlon ntime : Nat) : Stmt :=
  seqList [.pr 5, .pr 6, .pr 7, .pr 25, .pr 26, .pr 27, .pr 28,
    .pr 42, .pr 43, .pr 44, .pr 45, .pr 50, .pr 51, .pr 55, .pr 71, .pr 72, .pr 73,
    .forRange nlat (.forRange nlon (.forRange ntime .skip)),
    .pr 86, .pr 91, .pr 100, .pr 101, .pr 102,
    .pr 114, .pr 115, .pr 116, .pr 117, .pr 121, .pr 127, .pr 128, .pr 129,
    .forRange 10 (.pr 134),
    .pr 140, .pr 141, .pr 142, .pr 143, .pr 144, .pr 145, .pr 146, .pr 147,
    .pr 149, .pr 150, .pr 151, .pr 152, .pr 153, .pr 157, .pr 158, .pr 159]

/-- verify_coordinate_mapping.py control flow.  The booleans record the
isinstance(..., MaskedArray) test at line 60 and the missing_count == 0
test at line 102, which guards the side-by-side table and its 10-iteration
loop (lines 107-112). -/
def verify_coordinate_mapping_prog (mv missingZero : Bool) : Stmt :=
  seqList [.pr 5, .pr 6, .pr 7, .pr 15, .pr 16, .pr 17, .pr 18,
    .pr 33, .pr 34, .pr 35, .pr 36, .pr 37, .pr 38, .pr 47, .pr 48, .pr 49,
    .pr 51, .pr 52, .pr 53, .pr 57, .pr 58,
    .branch mv (.pr 62) .skip,
    .pr 68, .pr 69, .pr 70, .pr 77, .pr 78, .pr 91, .pr 92, .pr 95,
    .pr 98, .pr 99, .pr 100,
    .branch missingZero
      (seqList [.pr 107, .pr 108, .pr 109, .forRange 10 (.pr 112)]) .skip,
    .pr 116, .pr 117, .pr 118]

/-- A run of a script: its print trace followed by the process exit. -/
def runOf (prog : Stmt) : List Ev := exec prog ++ [.exitEv]

def check_chunk_run : List Ev := runOf check_chunk_prog

def compare_netcdf_chunk_run (m1 m2 m3 : Bool) : List Ev :=
  runOf (compare_netcdf_chunk_prog m1 m2 m3)

def diagnose_netcdf_run (ndims : Nat)
    (hasFill hasScale hasOffset hasUnits validNonempty : Bool) : List Ev :=
  runOf (diagnose_netcdf_prog ndims hasFill hasScale hasOffset hasUnits validNonempty)

def final_diagnosis_run (nlat nlon ntime : Nat) : List Ev :=
  runOf (final_diagnosis_prog nlat nlon ntime)

def verify_coordinate_mapping_run (mv missingZero : Bool) : List Ev :=
  runOf (verify_coordinate_mapping_prog mv missingZero)

lemma runOf_length (prog : Stmt) : (runOf prog).length = stLen prog + 1 := by
  simp [runOf, exec_length]

lemma runOf_getLast (prog : Stmt) : (runOf prog).getLast? = some .exitEv := by
  rw [runOf, List.getLast?_concat]

/-! ## Absence of a command-line interface

No script reads sys.argv or takes any other command-line input: every file
path is a hard-coded literal.  Each script's entry point is modelled as a
function of the interpreter's argument vector and of the data-dependent
parameters derived from the contents of the two files; the argument vector
is ignored by construction, exactly as in the source, and the set of files
a script opens is a constant of the script. -/

def check_chunk_main (_argv : List (List Nat)) : List Ev × List FileOpen :=
  (check_chunk_run, check_chunk_opens)

def compare_netcdf_chunk_main (_argv : List (List Nat)) (m1 m2 m3 : Bool) :
    List Ev × List FileOpen :=
  (compare_netcdf_chunk_run m1 m2 m3, compare_netcdf_chunk_opens)

def diagnose_netcdf_main (_argv : List (List Nat)) (ndims : Nat)
    (hasFill hasScale hasOffset hasUnits validNonempty : Bool) :
    List Ev × List FileOpen :=
  (diagnose_netcdf_run ndims hasFill hasScale hasOffset hasUnits validNonempty,
   diagnose_netcdf_opens)

def final_diagnosis_main (_argv : List (List Nat)) (nlat nlon ntime : Nat) :
    List Ev × List FileOpen :=
  (final_diagnosis_run nlat nlon ntime, final_diagnosis_opens)

def verify_coordinate_mapping_main (_argv : List (List Nat)) (mv missingZero : Bool) :
    List Ev × List FileOpen :=
  (verify_coordinate_mapping_run mv missingZero, verify_coordinate_mapping_opens)

/-! ## Nearest-neighbour coordinate lookup of the two comparison scripts

compare_netcdf_chunk.py locates a target (lat, lon) with
np.argmin(np.abs(arr - target)) over the FULL coordinate arrays and
flattens with the full longitude length (lines 76-83), while
verify_coordinate_mapping.py runs the same search over the bounding-box
FILTERED arrays and flattens with the filtered longitude length (lines
65-75); both then read byte offset coord * num_days * 4 of the same chunk
file (lines 97 and 87).

The coordinate arrays themselves live in the external NetCDF dataset, not
in the repository.  Coordinates are represented in exact tenths of a
degree, so the bounding-box bounds -25.0, 45.0, 34.0, 72.0 become -250,
450, 340, 720 and Berlin (52.5 N, 13.4 E) becomes (525, 134).
-/

/-- np.argmin on a list of absolute differences: the index of the first
minimum, 0 on the empty list. -/
def argminAux : List Nat → Nat → Nat → Nat → Nat
  | [], _, best, _ => best
  | v :: vs, i, best, bestv =>
    if v < bestv then argminAux vs (i + 1) i v else argminAux vs (i + 1) best bestv

/-- np.argmin: index of the first occurrence of the minimum. -/
def np_argmin : List Nat → Nat
  | [] => 0
  | v :: vs => argminAux vs 1 0 v

/-- np.abs(arr - target) over a coordinate array in tenths of a degree. -/
def absDiffs (l : List ℤ) (target : ℤ) : List Nat :=
  l.map (fun x => (x - target).natAbs)

/-- numpy fancy indexing l[idxs]; every index produced by the filtering is
in bounds, so the default 0 is never used. -/
def selectIdx (l : List ℤ) (idxs : List Nat) : List ℤ :=
  idxs.map (fun i => l.getD i 0)

/-- compare_netcdf_chunk.py lines 76-77 and 83: nearest-neighbour indices
in the full grid, flattened lat-major with the full longitude length. -/
def coordIndexCompare (lat_full lon_full : List ℤ) (tLat tLon : ℤ) : Nat :=
  coord_index (np_argmin (absDiffs lat_full tLat)) (np_argmin (absDiffs lon_full tLon))
    lon_full.length

/-- verify_coordinate_mapping.py lines 24-31 and 65-75: the bounding-box
filter of the coordinate arrays (in tenths of a degree), then
nearest-neighbour indices in the filtered grid, flattened lat-major with
the filtered longitude length. -/
def coordIndexVerify (lat_full lon_full : List ℤ) (tLat tLon : ℤ) : Nat :=
  coord_idx_calculated
    (np_argmin (absDiffs (selectIdx lat_full (npWhereInRange lat_full 340 720)) tLat))
    (np_argmin (absDiffs (selectIdx lon_full (npWhereInRange lon_full (-250) 450)) tLon))
    (selectIdx lon_full (npWhereInRange lon_full (-250) 450)).length

/-- Byte offset of a coordinate's time series in the chunk file:
compare_netcdf_chunk.py line 97 and verify_coordinate_mapping.py line 87,
offset = coord * num_days * 4. -/
def chunkByteOffset (coord : Nat) : Nat := coord * num_days * 4

/-- Modelled from the spec: the latitude array of the external NetCDF
dataset, which is not part of the repository.  The source records a full
grid of 465 latitude cells (compare_netcdf_chunk.py line 29) at 0.1 degree
spacing whose bounding-box filter to [34.0, 72.0] keeps 381 cells
(verify_coordinate_mapping.py line 37), so cell j sits at 25.6 + 0.1 * j
degrees, in tenths 256 + j. -/
def latGridE : List ℤ := (List.range 465).map (fun j : Nat => 256 + (j : ℤ))

/-- Modelled from the spec: the longitude array of the external NetCDF
dataset, which is not part of the repository.  The source records 705
longitude cells (compare_netcdf_chunk.py line 29) at 0.1 degree spacing
whose bounding-box filter to [-25.0, 45.0] keeps 701 cells
(verify_coordinate_mapping.py line 37), so cell i sits at -25.4 + 0.1 * i
degrees, in tenths -254 + i. -/
def lonGridE : List ℤ := (List.range 705).map (fun i : Nat => -254 + (i : ℤ))

/-! ## The triple-loop flattening of final_diagnosis.py

final_diagnosis.py lines 75-84 allocate flat_data_python =
np.zeros(num_coords * ntime) and fill it with the R script's loop
structure: for j over the nlat latitudes, for i over the nlon longitudes,
for t over the ntime days, write data_transposed[i, j, t] at flat position
coord_idx * ntime + t, incrementing coord_idx once per (j, i) pair.  The
flat array is modelled as a total function from positions to values and
data_transposed as a function of (i, j, t).
-/

/-- Writing a row of n values vals 0, ..., vals (n-1) at consecutive
positions base, ..., base + n - 1 of the array f. -/
def writeRow {α : Type} (vals : Nat → α) (base n : Nat) (f : Nat → α) : Nat → α :=
  (List.range n).foldl (fun g t => Function.update g (base + t) (vals t)) f

/-- final_diagnosis.py lines 80-83, the innermost loop: for t in
range(ntime), flat_data_python[coord_idx * ntime + t] =
data_transposed[i, j, t]. -/
def writeTimes {α : Type} (data : Nat → Nat → Nat → α) (i j c ntime : Nat)
    (f : Nat → α) : Nat → α :=
  (List.range ntime).foldl (fun g t => Function.update g (c * ntime + t) (data i j t)) f

/-- final_diagnosis.py lines 79-84, the middle loop: for i in range(nlon),
run the time loop at the current coord_idx, then coord_idx += 1.  The
state is the pair of coord_idx and the flat array. -/
def writeLons {α : Type} (data : Nat → Nat → Nat → α) (j nlon ntime : Nat)
    (s : Nat × (Nat → α)) : Nat × (Nat → α) :=
  (List.range nlon).foldl (fun s i => (s.1 + 1, writeTimes data i j s.1 ntime s.2)) s

/-- final_diagnosis.py lines 77-84: the full triple loop, from coord_idx =
0 over the initial flat array f0, returning the final coord_idx and the
filled flat array. -/
def flattenLoop {α : Type} (data : Nat → Nat → Nat → α) (nlat nlon ntime : Nat)
    (f0 : Nat → α) : Nat × (Nat → α) :=
  (List.range nlat).foldl (fun s j => writeLons data j nlon ntime s) (0, f0)

/-- flat_data_python after the triple loop.  Line 75 initialises the array
to zeros; the values at the written positions do not depend on the initial
contents, so the initial array is kept general. -/
def flat_data_python {α : Type} (data : Nat → Nat → Nat → α) (nlat nlon ntime : Nat)
    (f0 : Nat → α) : Nat → α :=
  (flattenLoop data nlat nlon ntime f0).2

end Breath

/-! ## Theorems for the claims -/

namespace Breath

/-- C1 counterexample: the claim that some script uses the lon-major
convention coord = lon_idx * nlat + lat_idx is false.  On a grid with
nlat = 2 and nlon = 3, at lat_idx = 0 and lon_idx = 1, all three
coordinate-index functions appearing in the source equal the lat-major
value 1, while the lon-major convention gives 2; no script computes the
lon-major value. -/
theorem C1_counterexample :
    coord_index 0 1 3 = 1 ∧ coord_idx_calculated 0 1 3 = 1 ∧
      coord_idx_berlin 0 1 3 = 1 ∧ lonMajorIndex 0 1 2 = 2 ∧
      latMajorIndex 0 1 3 = 1 ∧ (1 : Nat) ≠ 2 := by
  decide

/-- C1 (amended): every coordinate-index function in the source is the
lat-major convention coord = lat_idx * nlon + lon_idx; no script uses the
lon-major convention; and on any grid with nlat > 1 and nlon > 1 the two
conventions differ at some in-bounds index pair. -/
theorem C1_all_lat_major (lat_idx lon_idx nlat nlon : Nat) :
    coord_index lat_idx lon_idx nlon = latMajorIndex lat_idx lon_idx nlon ∧
    coord_idx_calculated lat_idx lon_idx nlon = latMajorIndex lat_idx lon_idx nlon ∧
    coord_idx_berlin lat_idx lon_idx nlon = latMajorIndex lat_idx lon_idx nlon ∧
    (1 < nlat → 1 < nlon →
      ∃ la lo, la < nlat ∧ lo < nlon ∧
        latMajorIndex la lo nlon ≠ lonMajorIndex la lo nlat) := by
  refine ⟨rfl, rfl, rfl, fun ha ho => ⟨0, 1, by omega, by omega, ?_⟩⟩
  simp only [latMajorIndex, lonMajorIndex]
  omega

/-- C1 witness: the amended theorem applied on the concrete grid with
nlat = 2 and nlon = 3. -/
theorem C1_witness :
    (1 < 2 ∧ 1 < 3) ∧
      ∃ la lo, la < 2 ∧ lo < 3 ∧ latMajorIndex la lo 3 ≠ lonMajorIndex la lo 2 :=
  ⟨⟨by decide, by decide⟩, (C1_all_lat_major 0 0 2 3).2.2.2 (by decide) (by decide)⟩

lemma argminAux_ge : ∀ (l : List Nat) (i best bestv : Nat),
    (∀ v ∈ l, bestv ≤ v) → argminAux l i best bestv = best := by
  intro l
  induction l with
  | nil => intro i best bestv _; rfl
  | cons v vs ih =>
    intro i best bestv h
    simp only [argminAux]
    rw [if_neg (by have := h v (List.mem_cons_self v vs); omega)]
    exact ih (i + 1) best bestv (fun w hw => h w (List.mem_cons_of_mem v hw))

lemma argminAux_first_zero : ∀ (l : List Nat) (k i best bestv : Nat), 0 < bestv →
    k < l.length → l.getD k 1 = 0 → (∀ kk, kk < k → 0 < l.getD kk 1) →
    argminAux l i best bestv = i + k := by
  intro l
  induction l with
  | nil => intro k i best bestv _ hk; simp at hk
  | cons v vs ih =>
    intro k i best bestv hb hk h0 hbefore
    cases k with
    | zero =>
      have hv : v = 0 := by simpa using h0
      subst hv
      simp only [argminAux]
      rw [if_pos hb, argminAux_ge vs (i + 1) i 0 (fun w _ => Nat.zero_le w)]
      omega
    | succ kp =>
      have hv : 0 < v := by simpa using hbefore 0 (Nat.succ_pos kp)
      simp only [argminAux]
      by_cases hvb : v < bestv
      · rw [if_pos hvb, ih kp (i + 1) i v hv (by simpa using hk) (by simpa using h0)
          (fun kk hkk => by simpa using hbefore (kk + 1) (by omega))]
        omega
      · rw [if_neg hvb, ih kp (i + 1) best bestv hb (by simpa using hk)
          (by simpa using h0)
          (fun kk hkk => by simpa using hbefore (kk + 1) (by omega))]
        omega

lemma np_argmin_first_zero (l : List Nat) (k : Nat) (hk : k < l.length)
    (h0 : l.getD k 1 = 0) (hbefore : ∀ kk, kk < k → 0 < l.getD kk 1) :
    np_argmin l = k := by
  cases l with
  | nil => simp at hk
  | cons v vs =>
    cases k with
    | zero =>
      have hv : v = 0 := by simpa using h0
      subst hv
      simp only [np_argmin]
      exact argminAux_ge vs 1 0 0 (fun w _ => Nat.zero_le w)
    | succ kp =>
      have hv : 0 < v := by simpa using hbefore 0 (Nat.succ_pos kp)
      simp only [np_argmin]
      rw [argminAux_first_zero vs kp 1 0 v hv (by simpa using hk) (by simpa using h0)
        (fun kk hkk => by simpa using hbefore (kk + 1) (by omega))]
      omega

lemma getD_map_range {α : Type} (n : Nat) (f : Nat → α) (d : α) (i : Nat) :
    ((List.range n).map f).getD i d = if i < n then f i else d := by
  by_cases h : i < n
  · rw [List.getD_eq_getElem _ _ (by simpa using h)]
    simp [h]
  · rw [List.getD_eq_default _ _ (by simpa using Nat.le_of_not_lt h)]
    simp [h]

lemma absDiffs_affine (n : Nat) (c : ℤ) (m : Nat) :
    absDiffs ((List.range n).map (fun i : Nat => c + (i : ℤ))) (c + (m : ℤ))
      = (List.range n).map (fun i : Nat => Nat.dist i m) := by
  rw [absDiffs, List.map_map]
  refine List.map_congr_left (fun i _ => ?_)
  show (c + (i : ℤ) - (c + (m : ℤ))).natAbs = Nat.dist i m
  simp only [Nat.dist]
  omega

lemma np_argmin_absDiffs_affine (n : Nat) (c : ℤ) (m : Nat) (hm : m < n) :
    np_argmin (absDiffs ((List.range n).map (fun i : Nat => c + (i : ℤ))) (c + (m : ℤ))) = m := by
  rw [absDiffs_affine]
  refine np_argmin_first_zero _ m (by simpa using hm) ?_ ?_
  · rw [getD_map_range, if_pos hm, Nat.dist_self]
  · intro kk hkk
    rw [getD_map_range, if_pos (by omega : kk < n)]
    simp only [Nat.dist]
    omega

lemma filter_range_ge : ∀ (n a : Nat), a ≤ n →
    (List.range n).filter (fun i => a ≤ i) = List.range' a (n - a) := by
  intro n
  induction n with
  | zero =>
    intro a ha
    have h0 : a = 0 := by omega
    subst h0
    rfl
  | succ m ih =>
    intro a ha
    rw [List.range_succ, List.filter_append]
    by_cases ham : a ≤ m
    · rw [ih a ham]
      have hstep : List.filter (fun i => a ≤ i) [m] = [m] := by
        simp [List.filter_cons, ham]
      rw [hstep]
      have hm : m = a + (m - a) := by omega
      have hcat : List.range' a (m - a + 1) = List.range' a (m - a) ++ [a + 1 * (m - a)] :=
        List.range'_concat a (m - a)
      rw [one_mul] at hcat
      rw [show m + 1 - a = (m - a) + 1 from by omega, hcat, ← hm]
    · have ha' : a = m + 1 := by omega
      subst ha'
      have hnil : List.filter (fun i => m + 1 ≤ i) (List.range m) = [] := by
        rw [List.filter_eq_nil_iff]
        intro x hx
        simp only [List.mem_range] at hx
        simp
        omega
      have hone : List.filter (fun i => m + 1 ≤ i) [m] = [] := by
        simp [List.filter_cons]
      rw [hnil, hone]
      simp

lemma npWhereInRange_grid (n : Nat) (c lo hi : ℤ) (a : Nat)
    (ha : a ≤ n)
    (hcond : ∀ i : Nat, i < n → ((lo ≤ c + (i : ℤ) ∧ c + (i : ℤ) ≤ hi) ↔ a ≤ i)) :
    npWhereInRange ((List.range n).map (fun i : Nat => c + (i : ℤ))) lo hi
      = List.range' a (n - a) := by
  have h1 : npWhereInRange ((List.range n).map (fun i : Nat => c + (i : ℤ))) lo hi
      = (List.range n).filter (fun i => a ≤ i) := by
    unfold npWhereInRange
    rw [List.length_map, List.length_range]
    refine List.filter_congr (fun i hi' => ?_)
    have hin : i < n := by simpa using hi'
    rw [getD_map_range, if_pos hin, decide_eq_decide]
    exact hcond i hin
  rw [h1, filter_range_ge n a ha]

lemma selectIdx_grid (nfull : Nat) (c : ℤ) (a nkeep : Nat) (hbound : a + nkeep ≤ nfull) :
    selectIdx ((List.range nfull).map (fun i : Nat => c + (i : ℤ))) (List.range' a nkeep)
      = (List.range nkeep).map (fun i : Nat => (c + (a : ℤ)) + (i : ℤ)) := by
  rw [List.range'_eq_map_range]
  unfold selectIdx
  rw [List.map_map]
  refine List.map_congr_left (fun i hi' => ?_)
  have hin : i < nkeep := by simpa using hi'
  show ((List.range nfull).map (fun i : Nat => c + (i : ℤ))).getD (a + i) 0
    = c + (a : ℤ) + (i : ℤ)
  rw [getD_map_range, if_pos (by omega : a + i < nfull)]
  push_cast
  ring

lemma lonFilteredE :
    selectIdx lonGridE (npWhereInRange lonGridE (-250) 450)
      = (List.range 701).map (fun i : Nat => (-250 : ℤ) + (i : ℤ)) := by
  rw [lonGridE]
  rw [npWhereInRange_grid 705 (-254) (-250) 450 4 (by omega)
    (fun i hi => by constructor <;> intro <;> omega)]
  rw [show (705 : Nat) - 4 = 701 from by norm_num]
  rw [selectIdx_grid 705 (-254) 4 701 (by omega)]
  exact List.map_congr_left (fun i _ => by norm_num)

lemma latFilteredE :
    selectIdx latGridE (npWhereInRange latGridE 340 720)
      = (List.range 381).map (fun i : Nat => (340 : ℤ) + (i : ℤ)) := by
  rw [latGridE]
  rw [npWhereInRange_grid 465 256 340 720 84 (by omega)
    (fun i hi => by constructor <;> intro <;> omega)]
  rw [show (465 : Nat) - 84 = 381 from by norm_num]
  rw [selectIdx_grid 465 256 84 381 (by omega)]
  exact List.map_congr_left (fun i _ => by norm_num)

/-- C2: the coordinate-mapping arithmetic of compare_netcdf_chunk.py and
verify_coordinate_mapping.py is mutually inconsistent: on the modelled
465 by 705 grid, for the same target Berlin (52.5 N, 13.4 E) and the same
coordinate arrays, compare computes coordinate index 190033
(269 * 705 + 388 over the full grid) while verify computes 130069
(185 * 701 + 384 over the filtered grid), so the two scripts read
different byte offsets of the same chunk file for that location. -/
theorem C2_mapping_inconsistent :
    coordIndexCompare latGridE lonGridE 525 134 = 190033 ∧
    coordIndexVerify latGridE lonGridE 525 134 = 130069 ∧
    chunkByteOffset (coordIndexCompare latGridE lonGridE 525 134) ≠
      chunkByteOffset (coordIndexVerify latGridE lonGridE 525 134) := by
  have hlatfull : np_argmin (absDiffs latGridE 525) = 269 := by
    rw [latGridE, show (525 : ℤ) = 256 + (269 : Nat) from by norm_num]
    exact np_argmin_absDiffs_affine 465 256 269 (by omega)
  have hlonfull : np_argmin (absDiffs lonGridE 134) = 388 := by
    rw [lonGridE, show (134 : ℤ) = -254 + (388 : Nat) from by norm_num]
    exact np_argmin_absDiffs_affine 705 (-254) 388 (by omega)
  have hlatf : np_argmin (absDiffs (selectIdx latGridE
      (npWhereInRange latGridE 340 720)) 525) = 185 := by
    rw [latFilteredE, show (525 : ℤ) = 340 + (185 : Nat) from by norm_num]
    exact np_argmin_absDiffs_affine 381 340 185 (by omega)
  have hlonf : np_argmin (absDiffs (selectIdx lonGridE
      (npWhereInRange lonGridE (-250) 450)) 134) = 384 := by
    rw [lonFilteredE, show (134 : ℤ) = -250 + (384 : Nat) from by norm_num]
    exact np_argmin_absDiffs_affine 701 (-250) 384 (by omega)
  have hlen : lonGridE.length = 705 := by
    rw [lonGridE]
    simp
  have hlenf : (selectIdx lonGridE (npWhereInRange lonGridE (-250) 450)).length = 701 := by
    rw [lonFilteredE]
    simp
  have h1 : coordIndexCompare latGridE lonGridE 525 134 = 190033 :=
    (congr (congr (congrArg coord_index hlatfull) hlonfull) hlen).trans rfl
  have h2 : coordIndexVerify latGridE lonGridE 525 134 = 130069 :=
    (congr (congr (congrArg coord_idx_calculated hlatf) hlonf) hlenf).trans rfl
  refine ⟨h1, h2, ?_⟩
  rw [h1, h2]
  decide

/-- C3 counterexample: not every script performs all five operations;
check_chunk.py never opens the NetCDF dataset, and diagnose_netcdf.py never
opens the binary chunk file. -/
theorem C3_counterexample :
    allScripts.all performsAllOps = false ∧
      checkChunkOps.opensNetCDF = false ∧ diagnoseNetcdfOps.opensChunk = false := by
  decide

/-- C3 (amended): exactly three of the five scripts (compare_netcdf_chunk,
final_diagnosis, verify_coordinate_mapping) perform all five operations;
check_chunk opens only the chunk file and performs none of the other four
operations, and diagnose_netcdf opens only the NetCDF dataset, never opens
the chunk file, computes no coordinate index, and prints no side-by-side
comparison. -/
theorem C3_three_of_five :
    (allScripts.filter performsAllOps).length = 3 ∧
    performsAllOps compareNetcdfChunkOps = true ∧
    performsAllOps finalDiagnosisOps = true ∧
    performsAllOps verifyCoordinateMappingOps = true ∧
    checkChunkOps = ⟨false, true, false, false, false⟩ ∧
    diagnoseNetcdfOps = ⟨true, false, false, false, false⟩ := by
  decide

lemma writeRow_zero {α : Type} (vals : Nat → α) (base : Nat) (f : Nat → α) :
    writeRow vals base 0 f = f := rfl

lemma writeRow_succ {α : Type} (vals : Nat → α) (base m : Nat) (f : Nat → α) :
    writeRow vals base (m + 1) f =
      Function.update (writeRow vals base m f) (base + m) (vals m) := by
  simp only [writeRow, List.range_succ, List.foldl_append, List.foldl_cons, List.foldl_nil]

lemma writeRow_read {α : Type} (vals : Nat → α) (base : Nat) :
    ∀ (n : Nat) (f : Nat → α) (t : Nat), t < n →
      writeRow vals base n f (base + t) = vals t := by
  intro n
  induction n with
  | zero => intro f t ht; omega
  | succ m ih =>
    intro f t ht
    rw [writeRow_succ]
    by_cases hm : t = m
    · subst hm
      exact Function.update_same _ _ _
    · rw [Function.update_noteq (by omega : base + t ≠ base + m)]
      exact ih f t (by omega)

lemma writeRow_frame {α : Type} (vals : Nat → α) (base : Nat) :
    ∀ (n : Nat) (f : Nat → α) (k : Nat), k < base ∨ base + n ≤ k →
      writeRow vals base n f k = f k := by
  intro n
  induction n with
  | zero => intro f k hk; rfl
  | succ m ih =>
    intro f k hk
    rw [writeRow_succ, Function.update_noteq (by omega : k ≠ base + m)]
    exact ih f k (by omega)

lemma writeTimes_eq {α : Type} (data : Nat → Nat → Nat → α) (i j c ntime : Nat)
    (f : Nat → α) :
    writeTimes data i j c ntime f = writeRow (data i j) (c * ntime) ntime f := rfl

lemma writeLons_succ {α : Type} (data : Nat → Nat → Nat → α) (j m ntime : Nat)
    (s : Nat × (Nat → α)) :
    writeLons data j (m + 1) ntime s =
      ((writeLons data j m ntime s).1 + 1,
        writeTimes data m j (writeLons data j m ntime s).1 ntime
          (writeLons data j m ntime s).2) := by
  simp only [writeLons, List.range_succ, List.foldl_append, List.foldl_cons, List.foldl_nil]

lemma writeLons_spec {α : Type} (data : Nat → Nat → Nat → α) (j ntime : Nat) :
    ∀ (nlon : Nat) (s : Nat × (Nat → α)),
      (writeLons data j nlon ntime s).1 = s.1 + nlon ∧
      (∀ i t, i < nlon → t < ntime →
        (writeLons data j nlon ntime s).2 ((s.1 + i) * ntime + t) = data i j t) ∧
      (∀ k, k < s.1 * ntime ∨ (s.1 + nlon) * ntime ≤ k →
        (writeLons data j nlon ntime s).2 k = s.2 k) := by
  intro nlon
  induction nlon with
  | zero =>
    intro s
    exact ⟨rfl, fun i t hi _ => absurd hi (Nat.not_lt_zero i), fun k _ => rfl⟩
  | succ m ih =>
    intro s
    obtain ⟨ih1, ih2, ih3⟩ := ih s
    rw [writeLons_succ]
    dsimp only
    refine ⟨by omega, ?_, ?_⟩
    · intro i t hi ht
      rw [ih1, writeTimes_eq]
      by_cases him : i = m
      · subst him
        exact writeRow_read (data i j) ((s.1 + i) * ntime) ntime _ t ht
      · have hfr : (s.1 + i) * ntime + t < (s.1 + m) * ntime := by
          have e1 : (s.1 + i + 1) * ntime = (s.1 + i) * ntime + ntime := by ring
          have e2 : (s.1 + i + 1) * ntime ≤ (s.1 + m) * ntime :=
            mul_le_mul_right' (by omega) ntime
          omega
        rw [writeRow_frame (data m j) ((s.1 + m) * ntime) ntime _ _ (Or.inl hfr)]
        exact ih2 i t (by omega) ht
    · intro k hk
      rw [ih1, writeTimes_eq]
      have hm1 : s.1 * ntime ≤ (s.1 + m) * ntime := mul_le_mul_right' (by omega) ntime
      have hm2 : (s.1 + m + 1) * ntime = (s.1 + m) * ntime + ntime := by ring
      have hm3 : (s.1 + (m + 1)) * ntime = (s.1 + m + 1) * ntime := by ring
      have hfr : k < (s.1 + m) * ntime ∨ (s.1 + m) * ntime + ntime ≤ k := by omega
      rw [writeRow_frame (data m j) ((s.1 + m) * ntime) ntime _ _ hfr]
      exact ih3 k (by omega)

lemma flattenLoop_succ {α : Type} (data : Nat → Nat → Nat → α) (m nlon ntime : Nat)
    (f0 : Nat → α) :
    flattenLoop data (m + 1) nlon ntime f0 =
      writeLons data m nlon ntime (flattenLoop data m nlon ntime f0) := by
  simp only [flattenLoop, List.range_succ, List.foldl_append, List.foldl_cons,
    List.foldl_nil]

lemma flattenLoop_spec {α : Type} (data : Nat → Nat → Nat → α) (nlon ntime : Nat) :
    ∀ (nlat : Nat) (f0 : Nat → α),
      (flattenLoop data nlat nlon ntime f0).1 = nlat * nlon ∧
      (∀ j i t, j < nlat → i < nlon → t < ntime →
        (flattenLoop data nlat nlon ntime f0).2 ((j * nlon + i) * ntime + t)
          = data i j t) := by
  intro nlat
  induction nlat with
  | zero =>
    intro f0
    exact ⟨by simp [flattenLoop], fun j i t hj _ _ => absurd hj (Nat.not_lt_zero j)⟩
  | succ m ih =>
    intro f0
    obtain ⟨ih1, ih2⟩ := ih f0
    rw [flattenLoop_succ]
    obtain ⟨h1, h2, h3⟩ :=
      writeLons_spec data m ntime nlon (flattenLoop data m nlon ntime f0)
    constructor
    · rw [h1, ih1]
      ring
    · intro j i t hj hi ht
      by_cases hjm : j = m
      · subst hjm
        have hr := h2 i t hi ht
        rw [ih1] at hr
        exact hr
      · have hfr : (j * nlon + i) * ntime + t <
            (flattenLoop data m nlon ntime f0).1 * ntime := by
          rw [ih1]
          have e2 : j * nlon + i + 1 ≤ m * nlon := by
            have e3 : (j + 1) * nlon ≤ m * nlon := mul_le_mul_right' (by omega) nlon
            have e4 : (j + 1) * nlon = j * nlon + nlon := by ring
            omega
          have e5 : (j * nlon + i + 1) * ntime ≤ m * nlon * ntime :=
            mul_le_mul_right' e2 ntime
          have e1 : (j * nlon + i + 1) * ntime = (j * nlon + i) * ntime + ntime := by
            ring
          omega
        rw [h3 _ (Or.inl hfr)]
        exact ih2 j i t (by omega) hi ht

lemma flatIndex_lt (nlat nlon ntime j i t : Nat) (hj : j < nlat) (hi : i < nlon)
    (ht : t < ntime) : (j * nlon + i) * ntime + t < nlon * nlat * ntime := by
  have e2 : j * nlon + i + 1 ≤ nlat * nlon := by
    have e3 : (j + 1) * nlon ≤ nlat * nlon := mul_le_mul_right' (by omega) nlon
    have e4 : (j + 1) * nlon = j * nlon + nlon := by ring
    omega
  have e5 : (j * nlon + i + 1) * ntime ≤ nlat * nlon * ntime := mul_le_mul_right' e2 ntime
  have e1 : (j * nlon + i + 1) * ntime = (j * nlon + i) * ntime + ntime := by ring
  have e6 : nlat * nlon * ntime = nlon * nlat * ntime := by ring
  omega

lemma flatIndex_recover (nlon ntime j i t : Nat) (hi : i < nlon) (ht : t < ntime) :
    ((j * nlon + i) * ntime + t) % ntime = t ∧
      ((j * nlon + i) * ntime + t) / ntime / nlon = j ∧
      (((j * nlon + i) * ntime + t) / ntime) % nlon = i := by
  have hnt : 0 < ntime := by omega
  have hnl : 0 < nlon := by omega
  have hmod : ((j * nlon + i) * ntime + t) % ntime = t := by
    rw [mul_comm (j * nlon + i) ntime, Nat.mul_add_mod, Nat.mod_eq_of_lt ht]
  have hdiv : ((j * nlon + i) * ntime + t) / ntime = j * nlon + i := by
    rw [mul_comm (j * nlon + i) ntime, Nat.mul_add_div hnt, Nat.div_eq_of_lt ht,
      Nat.add_zero]
  have hdd : (j * nlon + i) / nlon = j := by
    rw [mul_comm j nlon, Nat.mul_add_div hnl, Nat.div_eq_of_lt hi, Nat.add_zero]
  have hdm : (j * nlon + i) % nlon = i := by
    rw [mul_comm j nlon, Nat.mul_add_mod, Nat.mod_eq_of_lt hi]
  exact ⟨hmod, by rw [hdiv, hdd], by rw [hdiv, hdm]⟩

lemma flatIndex_surj (nlat nlon ntime k : Nat) (hk : k < nlon * nlat * ntime) :
    ∃ j i t, j < nlat ∧ i < nlon ∧ t < ntime ∧ (j * nlon + i) * ntime + t = k := by
  have hnt : 0 < ntime := by
    rcases Nat.eq_zero_or_pos ntime with h | h
    · subst h; simp at hk
    · exact h
  have hnl : 0 < nlon := by
    rcases Nat.eq_zero_or_pos nlon with h | h
    · subst h; simp at hk
    · exact h
  refine ⟨k / ntime / nlon, (k / ntime) % nlon, k % ntime, ?_, Nat.mod_lt _ hnl,
    Nat.mod_lt _ hnt, ?_⟩
  · have h1 : k / ntime < nlat * nlon := by
      rw [Nat.div_lt_iff_lt_mul hnt]
      have e : nlon * nlat * ntime = nlat * nlon * ntime := by ring
      omega
    rw [Nat.div_lt_iff_lt_mul hnl]
    exact h1
  · have e1 : (k / ntime / nlon) * nlon + (k / ntime) % nlon = k / ntime := by
      rw [mul_comm (k / ntime / nlon) nlon]
      exact Nat.div_add_mod (k / ntime) nlon
    rw [e1, mul_comm (k / ntime) ntime]
    exact Nat.div_add_mod k ntime

/-- C5: the triple loop of final_diagnosis.py realises the lat-major,
coordinate-major/time-minor layout exactly: after the loop, for all
in-bounds i, j, t, the flat array holds data_transposed[i, j, t] at
position (j * nlon + i) * ntime + t; that position is always below
nlon * nlat * ntime; and the index map (j, i, t) to
(j * nlon + i) * ntime + t is injective and onto [0, nlon * nlat * ntime),
so every cell of the flat array is written exactly once and every read is
in bounds. -/
theorem C5_flattening {α : Type} (data : Nat → Nat → Nat → α) (nlat nlon ntime : Nat)
    (f0 : Nat → α) :
    (∀ j i t, j < nlat → i < nlon → t < ntime →
      flat_data_python data nlat nlon ntime f0 ((j * nlon + i) * ntime + t)
        = data i j t) ∧
    (∀ j i t, j < nlat → i < nlon → t < ntime →
      (j * nlon + i) * ntime + t < nlon * nlat * ntime) ∧
    (∀ j i t j' i' t', i < nlon → t < ntime → i' < nlon → t' < ntime →
      (j * nlon + i) * ntime + t = (j' * nlon + i') * ntime + t' →
      j = j' ∧ i = i' ∧ t = t') ∧
    (∀ k, k < nlon * nlat * ntime →
      ∃ j i t, j < nlat ∧ i < nlon ∧ t < ntime ∧ (j * nlon + i) * ntime + t = k) := by
  refine ⟨?_, ?_, ?_, ?_⟩
  · intro j i t hj hi ht
    exact (flattenLoop_spec data nlon ntime nlat f0).2 j i t hj hi ht
  · intro j i t hj hi ht
    exact flatIndex_lt nlat nlon ntime j i t hj hi ht
  · intro j i t j' i' t' hi ht hi' ht' heq
    obtain ⟨m1, d1, m2⟩ := flatIndex_recover nlon ntime j i t hi ht
    obtain ⟨m1', d1', m2'⟩ := flatIndex_recover nlon ntime j' i' t' hi' ht'
    refine ⟨?_, ?_, ?_⟩
    · rw [← d1, ← d1', heq]
    · rw [← m2, ← m2', heq]
    · rw [← m1, ← m1', heq]
  · intro k hk
    exact flatIndex_surj nlat nlon ntime k hk

/-- C5 witness: the theorem applied to the concrete array
data i j t = 100 * i + 10 * j + t of shape nlon = 3, nlat = 2, ntime = 2:
the flat array holds data 2 1 1 = 211 at position (1 * 3 + 2) * 2 + 1. -/
theorem C5_witness :
    flat_data_python (fun i j t => 100 * i + 10 * j + t) 2 3 2 (fun _ => 0)
      ((1 * 3 + 2) * 2 + 1) = 211 := by
  have h := (C5_flattening (fun i j t => 100 * i + 10 * j + t) 2 3 2 (fun _ => 0)).1
    1 2 1 (by norm_num) (by norm_num) (by norm_num)
  simpa using h

lemma check_chunk_run_length : check_chunk_run.length = 6 := by
  rw [check_chunk_run, runOf_length]
  rfl

lemma compare_netcdf_chunk_run_length (m1 m2 m3 : Bool) :
    (compare_netcdf_chunk_run m1 m2 m3).length =
      44 + (if m1 then 2 else 0) + (if m2 then 1 else 0) + (if m3 then 5 else 0) := by
  rw [compare_netcdf_chunk_run, runOf_length]
  cases m1 <;> cases m2 <;> cases m3 <;> rfl

lemma diagnose_netcdf_run_length (ndims : Nat)
    (hasFill hasScale hasOffset hasUnits validNonempty : Bool) :
    (diagnose_netcdf_run ndims hasFill hasScale hasOffset hasUnits validNonempty).length
      = 45 + ndims + (if hasScale then 1 else 0) + (if hasOffset then 1 else 0) +
        (if hasUnits then 1 else 0) + (if validNonempty then 5 else 0) := by
  rw [diagnose_netcdf_run, runOf_length]
  cases hasFill <;> cases hasScale <;> cases hasOffset <;> cases hasUnits <;>
    cases validNonempty <;>
    simp only [diagnose_netcdf_prog, seqList, stLen, List.foldr_cons, List.foldr_nil,
      Nat.mul_one, if_true, if_false, Bool.false_eq_true] <;>
    omega

lemma final_diagnosis_run_length (nlat nlon ntime : Nat) :
    (final_diagnosis_run nlat nlon ntime).length = 57 := by
  rw [final_diagnosis_run, runOf_length]
  simp only [final_diagnosis_prog, seqList, stLen, List.foldr_cons, List.foldr_nil,
    Nat.mul_zero, Nat.mul_one]

lemma verify_coordinate_mapping_run_length (mv missingZero : Bool) :
    (verify_coordinate_mapping_run mv missingZero).length =
      36 + (if mv then 1 else 0) + (if missingZero then 13 else 0) := by
  rw [verify_coordinate_mapping_run, runOf_length]
  cases mv <;> cases missingZero <;> rfl

/-- C6: each of the five scripts terminates after a bounded trace of prints
in program order, ending in the process exit: the run of every script is a
list of events of a closed-form length determined by the array dimensions
and the data-dependent booleans, whose last event is the exit. -/
theorem C6_termination (ndims nlat nlon ntime : Nat)
    (m1 m2 m3 hasFill hasScale hasOffset hasUnits validNonempty mv missingZero : Bool) :
    check_chunk_run.length = 6 ∧
    check_chunk_run.getLast? = some .exitEv ∧
    (compare_netcdf_chunk_run m1 m2 m3).length =
      44 + (if m1 then 2 else 0) + (if m2 then 1 else 0) + (if m3 then 5 else 0) ∧
    (compare_netcdf_chunk_run m1 m2 m3).getLast? = some .exitEv ∧
    (diagnose_netcdf_run ndims hasFill hasScale hasOffset hasUnits validNonempty).length
      = 45 + ndims + (if hasScale then 1 else 0) + (if hasOffset then 1 else 0) +
        (if hasUnits then 1 else 0) + (if validNonempty then 5 else 0) ∧
    (diagnose_netcdf_run ndims hasFill hasScale hasOffset hasUnits
      validNonempty).getLast? = some .exitEv ∧
    (final_diagnosis_run nlat nlon ntime).length = 57 ∧
    (final_diagnosis_run nlat nlon ntime).getLast? = some .exitEv ∧
    (verify_coordinate_mapping_run mv missingZero).length =
      36 + (if mv then 1 else 0) + (if missingZero then 13 else 0) ∧
    (verify_coordinate_mapping_run mv missingZero).getLast? = some .exitEv :=
  ⟨check_chunk_run_length, runOf_getLast _,
   compare_netcdf_chunk_run_length m1 m2 m3, runOf_getLast _,
   diagnose_netcdf_run_length ndims hasFill hasScale hasOffset hasUnits validNonempty,
   runOf_getLast _,
   final_diagnosis_run_length nlat nlon ntime, runOf_getLast _,
   verify_coordinate_mapping_run_length mv missingZero, runOf_getLast _⟩

/-- C6 witness: the theorem applied on concrete dimensions and booleans,
evaluating the run of final_diagnosis.py on a 2 by 3 grid of 730 days to
its 57 events. -/
theorem C6_witness :
    (final_diagnosis_run 2 3 730).length = 57 ∧
      (final_diagnosis_run 2 3 730).getLast? = some .exitEv :=
  ⟨(C6_termination 3 2 3 730 false false false true true true true true
      false true).2.2.2.2.2.2.1,
   (C6_termination 3 2 3 730 false false false true true true true true
      false true).2.2.2.2.2.2.2.1⟩

/-- C9: no script takes command-line input: each script's run and the set
of files it opens are the same for any two argument vectors, given the same
contents-derived parameters, and the opened files are the script's
hard-coded constants. -/
theorem C9_no_cli (argv argv' : List (List Nat)) (ndims nlat nlon ntime : Nat)
    (m1 m2 m3 hasFill hasScale hasOffset hasUnits validNonempty mv missingZero : Bool) :
    check_chunk_main argv = check_chunk_main argv' ∧
    compare_netcdf_chunk_main argv m1 m2 m3 =
      compare_netcdf_chunk_main argv' m1 m2 m3 ∧
    diagnose_netcdf_main argv ndims hasFill hasScale hasOffset hasUnits validNonempty
      = diagnose_netcdf_main argv' ndims hasFill hasScale hasOffset hasUnits
          validNonempty ∧
    final_diagnosis_main argv nlat nlon ntime =
      final_diagnosis_main argv' nlat nlon ntime ∧
    verify_coordinate_mapping_main argv mv missingZero =
      verify_coordinate_mapping_main argv' mv missingZero ∧
    (check_chunk_main argv).2 = check_chunk_opens ∧
    (compare_netcdf_chunk_main argv m1 m2 m3).2 = compare_netcdf_chunk_opens ∧
    (diagnose_netcdf_main argv ndims hasFill hasScale hasOffset hasUnits
      validNonempty).2 = diagnose_netcdf_opens ∧
    (final_diagnosis_main argv nlat nlon ntime).2 = final_diagnosis_opens ∧
    (verify_coordinate_mapping_main argv mv missingZero).2 =
      verify_coordinate_mapping_opens :=
  ⟨rfl, rfl, rfl, rfl, rfl, rfl, rfl, rfl, rfl, rfl⟩

/-- C9 witness: the theorem applied to two concrete, distinct argument
vectors. -/
theorem C9_witness :
    check_chunk_main [[1, 2], [3]] = check_chunk_main [] :=
  (C9_no_cli [[1, 2], [3]] [] 3 2 3 730 false false false true true true true true
    false true).1

/-- C10: the three categories printed by check_chunk.py cover at most the
whole list, and fall short of it exactly when some non-NaN value is exactly
0.01 away from -99.99 (in exact arithmetic); such a value is counted in no
category. -/
theorem C10_categories (vs : List Val) :
    countMissing vs + countNaN vs + countValid vs ≤ vs.length ∧
      (countMissing vs + countNaN vs + countValid vs < vs.length ↔
        ∃ q : ℚ, some q ∈ vs ∧ |q + 9999/100| = 1/100) := by
  have h := counts_eq vs
  have hb : (vs.filter isBorderline).length ≤ vs.length := List.length_filter_le _ _
  constructor
  · omega
  · rw [h]
    constructor
    · intro hlt
      have hne : vs.filter isBorderline ≠ [] := fun h0 => by simp [h0] at hlt
      rcases List.exists_mem_of_ne_nil _ hne with ⟨v, hv⟩
      have hv' := List.mem_filter.mp hv
      match v, hv' with
      | some q, ⟨hmem, hq⟩ =>
        exact ⟨q, hmem, by simpa [isBorderline] using hq⟩
    · rintro ⟨q, hmem, hq⟩
      have hmem' : some q ∈ vs.filter isBorderline :=
        List.mem_filter.mpr ⟨hmem, by simp [isBorderline, hq]⟩
      have hpos : 0 < (vs.filter isBorderline).length :=
        List.length_pos.mpr (List.ne_nil_of_mem hmem')
      have hlen : 0 < vs.length := List.length_pos.mpr (List.ne_nil_of_mem hmem)
      omega

/-- C4: bounding-box filtering is inclusive and order-preserving: the kept
longitude indices are exactly those whose longitude lies in [-25, 45], the
kept latitude indices exactly those whose latitude lies in [34, 72], each
in strictly increasing index order, for every input coordinate array. -/
theorem C4_bounding_box_filter (lon_full lat_full : List ℚ) :
    (∀ i, i ∈ lon_indices lon_full ↔
      i < lon_full.length ∧ -25 ≤ lon_full.getD i (-25) ∧ lon_full.getD i (-25) ≤ 45) ∧
    List.Sorted (· < ·) (lon_indices lon_full) ∧
    (∀ j, j ∈ lat_indices lat_full ↔
      j < lat_full.length ∧ 34 ≤ lat_full.getD j 34 ∧ lat_full.getD j 34 ≤ 72) ∧
    List.Sorted (· < ·) (lat_indices lat_full) :=
  ⟨fun i => mem_npWhereInRange lon_full (-25) 45 i,
   sorted_npWhereInRange lon_full (-25) 45,
   fun j => mem_npWhereInRange lat_full 34 72 j,
   sorted_npWhereInRange lat_full 34 72⟩

/-- C4 witness: the theorem applied to the concrete longitude array
[-30, -25, 0, 45, 46] and latitude array [33, 34, 72, 80]: the kept index
lists are [1, 2, 3] and [1, 2]. -/
theorem C4_witness :
    1 ∈ lon_indices [-30, -25, 0, 45, 46] ∧ 0 ∉ lon_indices [-30, -25, 0, 45, 46] ∧
      2 ∈ lat_indices [33, 34, 72, 80] ∧ 3 ∉ lat_indices [33, 34, 72, 80] := by
  have h := C4_bounding_box_filter [-30, -25, 0, 45, 46] [33, 34, 72, 80]
  refine ⟨(h.1 1).mpr (by norm_num), fun hc => ?_, ((h.2.2.1) 2).mpr (by norm_num),
    fun hc => ?_⟩
  · have := (h.1 0).mp hc
    norm_num at this
  · have := ((h.2.2.1) 3).mp hc
    norm_num at this

/-- C7: no script modifies persistent state: every file open in every
script is read-only, and running all the opens of all five scripts leaves
the contents of every file, in particular the NetCDF dataset and the chunk
file, unchanged, whatever contents they held and whatever a writer would
have written. -/
theorem C7_read_only {β : Type} (w : FileOpen → β) (fs : FileId → β) :
    allOpens.all (fun op => op.mode.isReadOnly) = true ∧
    runOpens w allOpens fs = fs ∧
    runOpens w allOpens fs FileId.ncDataset = fs FileId.ncDataset ∧
    runOpens w allOpens fs FileId.chunkBin = fs FileId.chunkBin :=
  ⟨rfl, rfl, rfl, rfl⟩

/-- C7 witness: the theorem applied to the concrete file system assigning 0
to both files, with a writer that would write 1. -/
theorem C7_witness :
    runOpens (fun _ => (1 : Nat)) allOpens (fun _ => 0) = fun _ => 0 :=
  (C7_read_only (fun _ => (1 : Nat)) (fun _ => 0)).2.1

/-- C8: unpacking 730 float32 values from byte offset coord * 730 * 4 of
the chunk file succeeds exactly when coord * 730 * 4 + 730 * 4 bytes fit in
the file; under the precondition coord < len / (730 * 4) the unpack cannot
fail, and for every coord at or beyond len / (730 * 4) it raises. -/
theorem C8_slice_bounds {α : Type} (chunk_data : List α) (coord : Nat) :
    ((chunk_ts chunk_data coord).isSome = true ↔
      coord * 730 * 4 + 730 * 4 ≤ chunk_data.length) ∧
    (coord < chunk_data.length / (730 * 4) →
      (chunk_ts chunk_data coord).isSome = true) ∧
    (chunk_data.length / (730 * 4) ≤ coord → chunk_ts chunk_data coord = none) := by
  have hlen : (pySlice chunk_data (coord * 730 * 4) (coord * 730 * 4 + 730 * 4)).length
      = min (coord * 730 * 4 + 730 * 4) chunk_data.length - coord * 730 * 4 :=
    length_pySlice chunk_data _ _
  have hsome : (chunk_ts chunk_data coord).isSome = true ↔
      coord * 730 * 4 + 730 * 4 ≤ chunk_data.length := by
    show (structUnpackF num_days
      (pySlice chunk_data (coord * num_days * 4)
        (coord * num_days * 4 + num_days * 4))).isSome = true ↔ _
    have hnd : num_days = 730 := rfl
    rw [hnd, structUnpackF]
    by_cases hb : coord * 730 * 4 + 730 * 4 ≤ chunk_data.length
    · rw [if_pos (by rw [hlen]; omega)]
      simpa using hb
    · rw [if_neg (by rw [hlen]; omega)]
      simpa using hb
  refine ⟨hsome, fun h => hsome.mpr (by omega), fun h => ?_⟩
  have hns : ¬ (chunk_ts chunk_data coord).isSome = true := by
    rw [hsome]
    omega
  exact Option.not_isSome_iff_eq_none.mp hns

/-- C8 witness: the theorem applied to a chunk file of exactly 2920 bytes:
reading coordinate 0 succeeds, reading coordinate 5 raises. -/
theorem C8_witness :
    (chunk_ts (List.replicate 2920 (0 : Nat)) 0).isSome = true ∧
      chunk_ts (List.replicate 2920 (0 : Nat)) 5 = none := by
  constructor
  · have h := (C8_slice_bounds (List.replicate 2920 (0 : Nat)) 0).2.1
    rw [List.length_replicate] at h
    exact h (by norm_num)
  · have h := (C8_slice_bounds (List.replicate 2920 (0 : Nat)) 5).2.2
    rw [List.length_replicate] at h
    exact h (by norm_num)

/-- C10 witness: the theorem applied to the concrete list containing a NaN,
a missing value, a valid value and a borderline value 0.01 away from
-99.99. -/
theorem C10_witness :
    countMissing [none, some (-9999/100), some 0, some (-9998/100)] +
      countNaN [none, some (-9999/100), some 0, some (-9998/100)] +
      countValid [none, some (-9999/100), some 0, some (-9998/100)] <
      ([none, some (-9999/100), some 0, some (-9998/100)] : List Val).length :=
  (C10_categories [none, some (-9999/100), some 0, some (-9998/100)]).2.mpr
    ⟨-9998/100, by simp,
      by rw [show (-9998/100 : ℚ) + 9999/100 = 1/100 by norm_num,
        abs_of_pos (by norm_num)]⟩

end Breath
